import Mathlib

/-!
Shallow embedding of `threema/gateway/__init__.py` (the `Connection` class of
the Threema message API SDK) and proofs about it.

HTTP traffic is modelled by an effect trace: each endpoint operation returns
the ordered list of transport effects it performs together with its outcome.
The server's reply is an input oracle (`Response`). Python exceptions are
modelled by the outcome type: gateway exceptions (from the repository's
`exception` module) as `GatewayError`, uncaught Python built-in exceptions as
`builtinError`.
-/

namespace ThreemaMsgapi

/-- A server reply: HTTP status code and the body text. -/
structure Response where
  status : Nat
  body : String
deriving DecidableEq, Repr

/-- Modelled from the spec: the error taxonomy of `threema.gateway.exception`
(not under `src/`, only imported there).  One constructor per error class used
by `Connection`; each per-endpoint server-error family carries the HTTP status
that selected the concrete member (spec section 7: status-code-driven variants).
Message payloads are omitted: no claim depends on message text. -/
inductive GatewayError where
  | gatewayKeyError
  | keyServerError (status : Nat)
  | idError
  | idServerError (status : Nat)
  | receptionCapabilitiesError
  | receptionCapabilitiesServerError (status : Nat)
  | creditsServerError (status : Nat)
  | messageServerError (status : Nat)
  | blobServerError (status : Nat)
deriving DecidableEq, Repr

/-- Outcome of running a Python method: a value, a raised gateway exception, or
an uncaught Python built-in exception (identified by its type name). -/
inductive PyOutcome (α : Type) where
  | ok (a : α)
  | gwError (e : GatewayError)
  | builtinError (typeName : String)
deriving DecidableEq, Repr

def PyOutcome.map {α β : Type} (f : α → β) : PyOutcome α → PyOutcome β
  | .ok a => .ok (f a)
  | .gwError e => .gwError e
  | .builtinError n => .builtinError n

/-- A Python value that can be assigned to `Connection.key`: a string encoding,
the object produced by decoding a string, or an already-decoded opaque key
object supplied directly by the caller (non-string, non-None). -/
inductive PyKey where
  | str (s : String)
  | decoded (s : String)
  | obj (n : Nat)
deriving DecidableEq, Repr

/-- A transport effect performed by the `aiohttp` session, in order. -/
inductive Effect where
  | httpGet (url : String) (params : List (String × String))
  | httpPost (url : String) (query : List (String × String))
      (form : List (String × String)) (files : List (String × List Nat))
  | release
deriving DecidableEq, Repr

/-- Python `str.strip()` (whitespace variant): drop leading and trailing
whitespace characters. -/
def pyStrip (s : String) : String :=
  (((s.toList.dropWhile Char.isWhitespace).reverse.dropWhile
      Char.isWhitespace).reverse).asString

/-- Python `file.readline()` composed with the subsequent strip: the text of
the first line of the file content (everything before the first newline). -/
def firstLine (s : String) : String :=
  (s.toList.takeWhile (fun ch => ch ≠ '\n')).asString

/-- Python `text.split(',')` on the character list. -/
def splitCommaChars : List Char → List (List Char)
  | [] => [[]]
  | c :: cs =>
    let r := splitCommaChars cs
    if c = ',' then [] :: r
    else
      match r with
      | [] => [[c]]
      | h :: t => (c :: h) :: t

/-- Python `text.split(',')`: the comma-separated segments, in order; an
empty text yields one empty segment, as in Python. -/
def pySplitComma (s : String) : List String :=
  (splitCommaChars s.toList).map List.asString

namespace Key

/-- Modelled from the spec: `Key.decode(key, Key.Type.private)` from
`threema.gateway.key` (not under `src/`).  The spec (section 4.2) only requires
that a textual encoding is fed through the shared key-decoding collaborator
before storage; a successfully decoded private key is represented by a value
tagged with its source text.  Decoding failures are not modelled: no claim
depends on the key-format error path. -/
def decode (s : String) : PyKey := .decoded s

end Key

/-- The state of a `Connection` object.  `sessionFingerprint` is the
certificate fingerprint the `aiohttp.TCPConnector` of the session was pinned
to when the session was built in `__init__` (`none` = no pinning). -/
structure Connection where
  id : String
  secret : String
  keyStored : Option PyKey
  keyFileStored : Option String
  sessionFingerprint : Option (List Nat)
deriving DecidableEq, Repr

namespace Connection

/-- The class attribute `Connection.fingerprint`: the built-in fallback
fingerprint `b'm\x7f\xa3\x1d\x80\xdcV\xf9\xc1\xed\x17\x98*\xd6\x01\x7f'`. -/
def fingerprint : List Nat :=
  [0x6d, 0x7f, 0xa3, 0x1d, 0x80, 0xdc, 0x56, 0xf9,
   0xc1, 0xed, 0x17, 0x98, 0x2a, 0xd6, 0x01, 0x7f]

/- The `urls` class attribute: each entry of the dict, with `.format`
already applied to the positional placeholder where the template has one. -/

def urls_get_public_key (id : String) : String :=
  "https://msgapi.threema.ch/pubkeys/" ++ id

def urls_get_id_by_phone (v : String) : String :=
  "https://msgapi.threema.ch/lookup/phone/" ++ v

def urls_get_id_by_phone_hash (v : String) : String :=
  "https://msgapi.threema.ch/lookup/phone_hash/" ++ v

def urls_get_id_by_email (v : String) : String :=
  "https://msgapi.threema.ch/lookup/email/" ++ v

def urls_get_id_by_email_hash (v : String) : String :=
  "https://msgapi.threema.ch/lookup/email_hash/" ++ v

def urls_get_reception_capabilities (id : String) : String :=
  "https://msgapi.threema.ch/capabilities/" ++ id

def urls_get_credits : String := "https://msgapi.threema.ch/credits"

def urls_send_simple : String := "https://msgapi.threema.ch/send_simple"

def urls_send_e2e : String := "https://msgapi.threema.ch/send_e2e"

def urls_upload_blob : String := "https://msgapi.threema.ch/upload_blob"

def urls_download_blob (id : String) : String :=
  "https://msgapi.threema.ch/blobs/" ++ id

end Connection

/-- Python `dict` keyed by strings, in insertion order. -/
abbrev PyDict := List (String × String)

/-- `k in d` for a Python dict. -/
def containsKey (d : PyDict) (k : String) : Bool :=
  d.any (fun p => p.1 == k)

/-- `d[k]` as an option: the value of the first (unique, in a real dict)
binding of `k`. -/
def lookup (d : PyDict) (k : String) : Option String :=
  (d.find? (fun p => p.1 == k)).map (fun p => p.2)

/-- Python `d.setdefault(k, v)`: if `k` is already bound it is left unchanged,
otherwise the binding `k ↦ v` is appended. -/
def setdefault (d : PyDict) (k v : String) : PyDict :=
  if containsKey d k then d else d ++ [(k, v)]

/-- The `ReceptionCapability` enum. -/
inductive ReceptionCapability where
  | text
  | image
  | video
  | audio
  | file
deriving DecidableEq, Repr

/-- The string value of each `ReceptionCapability` member. -/
def ReceptionCapability.value : ReceptionCapability → String
  | .text => "text"
  | .image => "image"
  | .video => "video"
  | .audio => "audio"
  | .file => "file"

/-- The enum call `ReceptionCapability(s)`: the member whose value is `s`, or
`none` for the `ValueError` the call raises on an unrecognized value. -/
def ReceptionCapability.ofValue (s : String) : Option ReceptionCapability :=
  if s = "text" then some .text
  else if s = "image" then some .image
  else if s = "video" then some .video
  else if s = "audio" then some .audio
  else if s = "file" then some .file
  else none

/-- The set comprehension of `get_reception_capabilities`, elementwise:
`ReceptionCapability(capability.strip()) for capability in toks`.  `none`
models the `ValueError` raised on the first unrecognized token. -/
def parseCapabilities : List String → Option (List ReceptionCapability)
  | [] => some []
  | t :: ts =>
    match ReceptionCapability.ofValue (pyStrip t), parseCapabilities ts with
    | some c, some cs => some (c :: cs)
    | _, _ => none

namespace Connection

/-- The `key` property getter: raises `GatewayKeyError` when no private key is
stored ("Sender private key not specified"), otherwise returns it. -/
def key (c : Connection) : PyOutcome PyKey :=
  match c.keyStored with
  | none => .gwError .gatewayKeyError
  | some k => .ok k

/-- The `key` property setter: a string is decoded through
`Key.decode(key, Key.Type.private)` first, anything else (a decoded key
object, or `None`) is stored as is. -/
def set_key (c : Connection) (key : Option PyKey) : Connection :=
  match key with
  | some (.str s) => { c with keyStored := some (Key.decode s) }
  | k => { c with keyStored := k }

/-- The `key_file` property setter.  `fs` models the filesystem (path to file
content); an unreadable file raises the Python built-in `OSError` family
(`FileNotFoundError` for a missing file).  For a non-`None` path the first
line is read, stripped and fed through the `key` setter; the path itself is
recorded afterwards in every case. -/
def set_key_file (fs : String → Option String) (c : Connection)
    (key_file : Option String) : PyOutcome Connection :=
  match key_file with
  | none => .ok { c with keyFileStored := none }
  | some p =>
    match fs p with
    | none => .builtinError "FileNotFoundError"
    | some content =>
      .ok { set_key c (some (.str (pyStrip (firstLine content)))) with
            keyFileStored := some p }

/-- `Connection.__init__`: substitutes the class-level fallback fingerprint
when pinning is requested without an explicit fingerprint, builds the session
(pinned via its `TCPConnector`) before anything else, then assigns the `key`
and `key_file` properties in that order. -/
def init (fs : String → Option String) (id secret : String)
    (key : Option PyKey) (key_file : Option String)
    (fingerprint : Option (List Nat)) (verify_fingerprint : Bool) :
    PyOutcome Connection :=
  let fp := if fingerprint.isNone && verify_fingerprint then
      some Connection.fingerprint
    else fingerprint
  let c : Connection :=
    { id := id, secret := secret, keyStored := none, keyFileStored := none,
      sessionFingerprint := fp }
  set_key_file fs (set_key c key) key_file

/-- The credential injection shared by `_get` and `_send`:
`d.setdefault('from', self.id)` then `d.setdefault('secret', self.secret)`. -/
def injectDefaults (c : Connection) (d : PyDict) : PyDict :=
  setdefault (setdefault d "from" c.id) "secret" c.secret

/-- `Connection._get`: a session GET on `url` whose params dict (empty unless
supplied by the caller) receives the injected defaults. -/
def getRequest (c : Connection) (url : String) (params : PyDict) : Effect :=
  Effect.httpGet url (c.injectDefaults params)

end Connection

/-- Modelled from the spec: `raise_server_error(response, error)` from
`threema.gateway.util` (not under `src/`).  Per the spec (section 4.4) it
consumes/releases the response and raises a member of the given endpoint
error family, the member being selected by the HTTP status code. -/
def raise_server_error {α : Type} (resp : Response)
    (family : Nat → GatewayError) : List Effect × PyOutcome α :=
  ([Effect.release], .gwError (family resp.status))

/-- One hex digit, as `libnacl.encode.hex_decode` accepts it. -/
def hexDigit (ch : Char) : Option Nat :=
  if 48 ≤ ch.toNat ∧ ch.toNat ≤ 57 then some (ch.toNat - 48)
  else if 97 ≤ ch.toNat ∧ ch.toNat ≤ 102 then some (ch.toNat - 87)
  else if 65 ≤ ch.toNat ∧ ch.toNat ≤ 70 then some (ch.toNat - 55)
  else none

def hexPairs : List Char → Option (List Nat)
  | [] => some []
  | [_] => none
  | a :: b :: rest =>
    match hexDigit a, hexDigit b, hexPairs rest with
    | some x, some y, some bs => some ((16 * x + y) :: bs)
    | _, _, _ => none

/-- `libnacl.encode.hex_decode`: hex text to bytes; `none` models the
exception raised on odd length or a non-hex character. -/
def hexDecode (s : String) : Option (List Nat) := hexPairs s.toList

def digitsToNat (l : List Char) : Nat :=
  l.foldl (fun n ch => 10 * n + (ch.toNat - 48)) 0

/-- Python `int(s)`: optional surrounding whitespace and sign, then a
non-empty digit run; `none` models the `ValueError` otherwise. -/
def pyInt (s : String) : Option Int :=
  match (pyStrip s).toList with
  | [] => none
  | ch :: ds =>
    if ch = '-' then
      if ds ≠ [] ∧ ds.all Char.isDigit then some (-(digitsToNat ds : Int))
      else none
    else if ch = '+' then
      if ds ≠ [] ∧ ds.all Char.isDigit then some ((digitsToNat ds : Int))
      else none
    else if (ch :: ds).all Char.isDigit then some ((digitsToNat (ch :: ds) : Int))
    else none

namespace Connection

/-- `Connection.get_public_key`: GET on the pubkeys URL; on 200 the body is
hex-decoded into a public-key value (a bad body raises the decoding
collaborator's own exception, here the uncaught built-in family), otherwise
`raise_server_error(response, KeyServerError)`. -/
def get_public_key (c : Connection) (id : String) (resp : Response) :
    List Effect × PyOutcome (List Nat) :=
  let req := c.getRequest (urls_get_public_key id) []
  if resp.status = 200 then
    match hexDecode resp.body with
    | some key => ([req], .ok key)
    | none => ([req], .builtinError "binascii.Error")
  else
    let (es, r) := raise_server_error resp GatewayError.keyServerError
    (req :: es, r)

/-- The keys of the `modes` dict of `get_id`. -/
def get_id_modes : List String := ["phone", "phone_hash", "email", "email_hash"]

/-- `self.urls[modes[mode]].format(value)` for a recognized mode name. -/
def modeUrl (m v : String) : String :=
  if m = "phone" then urls_get_id_by_phone v
  else if m = "phone_hash" then urls_get_id_by_phone_hash v
  else if m = "email" then urls_get_id_by_email v
  else urls_get_id_by_email_hash v

/-- `Connection.get_id(**mode)`.  The kwargs dict is a list of (name, value)
pairs with distinct names.  Source order of the checks: first any unknown
mode name raises `IDError`, then more than one mode raises `IDError`; after
both checks `mode.popitem()` raises the Python built-in `KeyError` when the
dict is empty, and otherwise yields the single remaining item, on which the
request is issued. -/
def get_id (c : Connection) (mode : List (String × String)) (resp : Response) :
    List Effect × PyOutcome String :=
  if mode.any (fun p => !(get_id_modes.contains p.1)) then
    ([], .gwError .idError)
  else if mode.length > 1 then
    ([], .gwError .idError)
  else
    match mode with
    | [] => ([], .builtinError "KeyError")
    | (m, v) :: _ =>
      let req := c.getRequest (modeUrl m v) []
      if resp.status = 200 then ([req], .ok resp.body)
      else
        let (es, r) := raise_server_error resp GatewayError.idServerError
        (req :: es, r)

/-- `Connection.get_reception_capabilities`: on 200 the body is split on
commas and every stripped token converted through the enum; the resulting set
is returned.  An unrecognized token raises `ValueError` inside the
comprehension, which is caught: the response is released and then
`ReceptionCapabilitiesError` is raised.  On non-200,
`raise_server_error(response, ReceptionCapabilitiesServerError)`. -/
def get_reception_capabilities (c : Connection) (id : String)
    (resp : Response) : List Effect × PyOutcome (Finset ReceptionCapability) :=
  let req := c.getRequest (urls_get_reception_capabilities id) []
  if resp.status = 200 then
    match parseCapabilities (pySplitComma resp.body) with
    | some caps => ([req], .ok caps.toFinset)
    | none => ([req, Effect.release], .gwError .receptionCapabilitiesError)
  else
    let (es, r) := raise_server_error resp GatewayError.receptionCapabilitiesServerError
    (req :: es, r)

/-- `Connection.get_credits`: on 200 the body is parsed with `int(text)` (a
bad body raises the uncaught built-in `ValueError`), otherwise
`raise_server_error(response, CreditsServerError)`. -/
def get_credits (c : Connection) (resp : Response) :
    List Effect × PyOutcome Int :=
  let req := c.getRequest urls_get_credits []
  if resp.status = 200 then
    match pyInt resp.body with
    | some n => ([req], .ok n)
    | none => ([req], .builtinError "ValueError")
  else
    let (es, r) := raise_server_error resp GatewayError.creditsServerError
    (req :: es, r)

/-- `Connection._send(url, data)`: injects the defaults into the form data,
POSTs, returns the body text on 200 and otherwise
`raise_server_error(response, MessageServerError)`. -/
def sendInternal (c : Connection) (url : String) (data : PyDict)
    (resp : Response) : List Effect × PyOutcome String :=
  let form := c.injectDefaults data
  let req := Effect.httpPost url [] form []
  if resp.status = 200 then ([req], .ok resp.body)
  else
    let (es, r) := raise_server_error resp GatewayError.messageServerError
    (req :: es, r)

/-- `Connection.send_simple(**data)`. -/
def send_simple (c : Connection) (data : PyDict) (resp : Response) :
    List Effect × PyOutcome String :=
  c.sendInternal urls_send_simple data resp

/-- `Connection.send_e2e(**data)`. -/
def send_e2e (c : Connection) (data : PyDict) (resp : Response) :
    List Effect × PyOutcome String :=
  c.sendInternal urls_send_e2e data resp

/-- `Connection._upload(url, data)`: a fresh params dict carrying exactly
`from` and `secret` is passed as query parameters, the binary payload is the
multipart file field named `blob`; the body text is returned on 200 and
otherwise `raise_server_error(response, BlobServerError)`. -/
def uploadInternal (c : Connection) (url : String) (data : List Nat)
    (resp : Response) : List Effect × PyOutcome String :=
  let params := [("from", c.id), ("secret", c.secret)]
  let files := [("blob", data)]
  let req := Effect.httpPost url params [] files
  if resp.status = 200 then ([req], .ok resp.body)
  else
    let (es, r) := raise_server_error resp GatewayError.blobServerError
    (req :: es, r)

/-- `Connection.upload(data)`. -/
def upload (c : Connection) (data : List Nat) (resp : Response) :
    List Effect × PyOutcome String :=
  c.uploadInternal urls_upload_blob data resp

/-- `Connection.download(id)`: the raw response object itself is returned on
200, otherwise `raise_server_error(response, BlobServerError)`. -/
def download (c : Connection) (id : String) (resp : Response) :
    List Effect × PyOutcome Response :=
  let req := c.getRequest (urls_download_blob id) []
  if resp.status = 200 then ([req], .ok resp)
  else
    let (es, r) := raise_server_error resp GatewayError.blobServerError
    (req :: es, r)

end Connection

/-! ## Lemmas about the Python dict model -/

theorem lookup_nil (k : String) : lookup [] k = none := rfl

theorem lookup_cons (p : String × String) (t : PyDict) (k : String) :
    lookup (p :: t) k = if p.1 = k then some p.2 else lookup t k := by
  by_cases h : p.1 = k
  · have hb : (p.1 == k) = true := beq_iff_eq.mpr h
    simp [lookup, List.find?, hb, h]
  · have hb : (p.1 == k) = false := beq_eq_false_iff_ne.mpr h
    simp [lookup, List.find?, hb, h]

theorem containsKey_false_lookup (d : PyDict) (k : String)
    (h : containsKey d k = false) : lookup d k = none := by
  induction d with
  | nil => rfl
  | cons p t ih =>
    simp only [containsKey, List.any_cons, Bool.or_eq_false_iff] at h
    rw [lookup_cons]
    have h1 : ¬ p.1 = k := by
      intro he
      simp [he] at h
    simp only [h1, if_false]
    exact ih (by simpa [containsKey] using h.2)

theorem containsKey_true_lookup (d : PyDict) (k : String)
    (h : containsKey d k = true) : ∃ v, lookup d k = some v := by
  induction d with
  | nil => simp [containsKey] at h
  | cons p t ih =>
    rw [lookup_cons]
    by_cases h1 : p.1 = k
    · exact ⟨p.2, by simp [h1]⟩
    · simp only [h1, if_false]
      apply ih
      simp only [containsKey, List.any_cons, Bool.or_eq_true] at h
      rcases h with h | h
      · exact absurd (by simpa using h) h1
      · simpa [containsKey] using h

theorem lookup_append (d e : PyDict) (k : String) :
    lookup (d ++ e) k =
      match lookup d k with
      | some v => some v
      | none => lookup e k := by
  induction d with
  | nil => simp [lookup_nil]
  | cons p t ih =>
    rw [List.cons_append, lookup_cons, lookup_cons]
    by_cases h : p.1 = k <;> simp [h, ih]

/-- The value a `setdefault` leaves under its own key: the caller-supplied
value when the key was present, the default otherwise. -/
theorem lookup_setdefault_self (d : PyDict) (k v : String) :
    lookup (setdefault d k v) k = some ((lookup d k).getD v) := by
  unfold setdefault
  by_cases h : containsKey d k
  · obtain ⟨w, hw⟩ := containsKey_true_lookup d k h
    simp [h, hw]
  · have hn := containsKey_false_lookup d k (by simpa using h)
    simp [h, lookup_append, hn, lookup_cons]

/-- A `setdefault` on one key never touches the binding of a different key. -/
theorem lookup_setdefault_ne (d : PyDict) (k v q : String) (h : q ≠ k) :
    lookup (setdefault d k v) q = lookup d q := by
  unfold setdefault
  cases hc : containsKey d k with
  | true => simp [hc]
  | false =>
    simp only [hc, Bool.false_eq_true, if_false, lookup_append, lookup_cons,
      lookup_nil]
    have hne : ¬ k = q := fun he => h he.symm
    simp only [hne, if_false]
    cases lookup d q <;> rfl

/-- The two defaults injected by `_get` and `_send`: each of `from` and
`secret` resolves to the caller value when present and to the connection
credential otherwise. -/
theorem lookup_injectDefaults (c : Connection) (d : PyDict) :
    lookup (c.injectDefaults d) "from" = some ((lookup d "from").getD c.id) ∧
    lookup (c.injectDefaults d) "secret" = some ((lookup d "secret").getD c.secret) := by
  unfold Connection.injectDefaults
  constructor
  · rw [lookup_setdefault_ne _ _ _ _ (by decide)]
    exact lookup_setdefault_self d "from" c.id
  · rw [lookup_setdefault_self,
        lookup_setdefault_ne _ _ _ _ (by decide)]

/-! ## Claims -/

/-- Claim C1: every GET-based endpoint call and every POST-based send call
sends an outgoing parameter/body dictionary that binds `from` to the
connection's id and `secret` to its secret when the caller did not supply
them, and preserves a caller-supplied value for either key unchanged
(default-if-absent, never overwritten).  The first two conjuncts state the
default-if-absent semantics of the injected dictionary for arbitrary caller
dictionaries; the remaining conjuncts state that each GET endpoint issues its
request with exactly that dictionary (injected into the empty params dict the
endpoint methods pass) and each POST send call with exactly that dictionary
injected into the caller's form data. -/
theorem claim_C1 (c : Connection) (d : PyDict) (i m v bid : String)
    (resp : Response)
    (hm : Connection.get_id_modes.contains m = true) :
    lookup (c.injectDefaults d) "from" = some ((lookup d "from").getD c.id) ∧
    lookup (c.injectDefaults d) "secret" =
      some ((lookup d "secret").getD c.secret) ∧
    (c.get_public_key i resp).1.head? =
      some (.httpGet (Connection.urls_get_public_key i) (c.injectDefaults [])) ∧
    (c.get_id [(m, v)] resp).1.head? =
      some (.httpGet (Connection.modeUrl m v) (c.injectDefaults [])) ∧
    (c.get_reception_capabilities i resp).1.head? =
      some (.httpGet (Connection.urls_get_reception_capabilities i)
        (c.injectDefaults [])) ∧
    (c.get_credits resp).1.head? =
      some (.httpGet Connection.urls_get_credits (c.injectDefaults [])) ∧
    (c.download bid resp).1.head? =
      some (.httpGet (Connection.urls_download_blob bid) (c.injectDefaults [])) ∧
    (c.send_simple d resp).1.head? =
      some (.httpPost Connection.urls_send_simple [] (c.injectDefaults d) []) ∧
    (c.send_e2e d resp).1.head? =
      some (.httpPost Connection.urls_send_e2e [] (c.injectDefaults d) []) := by
  have hm2 : m ∈ Connection.get_id_modes := by simpa using hm
  refine ⟨(lookup_injectDefaults c d).1, (lookup_injectDefaults c d).2, ?_, ?_,
    ?_, ?_, ?_, ?_, ?_⟩ <;>
    by_cases hs : resp.status = 200 <;>
      simp only [Connection.get_public_key, Connection.get_id,
        Connection.get_reception_capabilities, Connection.get_credits,
        Connection.download, Connection.send_simple, Connection.send_e2e,
        Connection.sendInternal, Connection.getRequest, raise_server_error,
        hm, hs] <;>
      first
        | rfl
        | (cases hexDecode resp.body <;> rfl)
        | (cases parseCapabilities (pySplitComma resp.body) <;> rfl)
        | (cases pyInt resp.body <;> rfl)
        | simp [hm, hm2, hs]

theorem claim_C1_witness :
    lookup
      (Connection.injectDefaults
        { id := "*TESTID", secret := "gatewaysecret", keyStored := none,
          keyFileStored := none, sessionFingerprint := none }
        [("from", "OVERRIDE")]) "from" = some "OVERRIDE" :=
  (claim_C1
    { id := "*TESTID", secret := "gatewaysecret", keyStored := none,
      keyFileStored := none, sessionFingerprint := none }
    [("from", "OVERRIDE")] "ECHOECHO" "phone" "41791234567" "b1"
    ⟨200, "ok"⟩ (by decide)).1

/-- Claim C2 counterexample: calling `get_id` with zero mode arguments does
fail locally (no transport effect), but both mode checks pass and
`mode.popitem()` raises the Python built-in `KeyError` on the empty kwargs
dict — not the `IDError` validation error the claim requires. -/
theorem claim_C2_counterexample :
    Connection.get_id
      { id := "*TESTID", secret := "gatewaysecret", keyStored := none,
        keyFileStored := none, sessionFingerprint := none }
      [] ⟨200, "ECHOECHO"⟩ = ([], .builtinError "KeyError") ∧
    (PyOutcome.builtinError "KeyError" : PyOutcome String) ≠
      .gwError GatewayError.idError := by
  exact ⟨rfl, by decide⟩

/-- Claim C2 (amended): a `get_id` call with two or more mode arguments, or
with any mode name outside the recognized set, fails locally with the
`IDError` validation error before any transport effect; a call with zero
mode arguments also fails locally before any transport effect, but with the
Python built-in `KeyError` (raised by `mode.popitem()` on the empty kwargs
dict) instead of the validation error. -/
theorem claim_C2_amended (c : Connection) (mode : List (String × String))
    (resp : Response) :
    (mode = [] → c.get_id mode resp = ([], .builtinError "KeyError")) ∧
    ((∃ p ∈ mode, Connection.get_id_modes.contains p.1 = false) →
      c.get_id mode resp = ([], .gwError .idError)) ∧
    (mode.length > 1 → c.get_id mode resp = ([], .gwError .idError)) := by
  refine ⟨?_, ?_, ?_⟩
  · rintro rfl
    rfl
  · rintro ⟨p, hp, hcontains⟩
    have ha : mode.any (fun p => !(Connection.get_id_modes.contains p.1)) = true :=
      List.any_eq_true.mpr ⟨p, hp, by rw [hcontains]; rfl⟩
    simp only [Connection.get_id, ha]
    rfl
  · intro hlen
    by_cases ha : mode.any (fun p => !(Connection.get_id_modes.contains p.1)) = true
    · simp only [Connection.get_id, ha]
      rfl
    · have ha2 : mode.any (fun p => !(Connection.get_id_modes.contains p.1)) = false := by
        simpa using ha
      simp only [Connection.get_id, ha2]
      rw [if_neg (by decide), if_pos hlen]

theorem claim_C2_witness :
    Connection.get_id
      { id := "*TESTID", secret := "gatewaysecret", keyStored := none,
        keyFileStored := none, sessionFingerprint := none }
      [("bogus", "x")] ⟨200, "ECHOECHO"⟩ = ([], .gwError .idError) :=
  (claim_C2_amended
    { id := "*TESTID", secret := "gatewaysecret", keyStored := none,
      keyFileStored := none, sessionFingerprint := none }
    [("bogus", "x")] ⟨200, "ECHOECHO"⟩).2.1
    ⟨("bogus", "x"), by decide, by decide⟩

/-- Claim C3: reading the `key` property of a connection that stores no
private key (never set, or cleared) raises the `GatewayKeyError`
key-not-set error and never produces a substitute value, and for every
non-string, non-None key object assigned through the `key` setter a
subsequent read returns exactly that object. -/
theorem claim_C3 (c : Connection) (k : PyKey) (hk : ∀ s, k ≠ PyKey.str s) :
    (c.keyStored = none → c.key = .gwError .gatewayKeyError) ∧
    (c.set_key (some k)).key = .ok k := by
  constructor
  · intro h
    simp [Connection.key, h]
  · cases k with
    | str s => exact absurd rfl (hk s)
    | decoded s => rfl
    | obj n => rfl

theorem claim_C3_witness :
    ((Connection.set_key
      { id := "*TESTID", secret := "gatewaysecret", keyStored := none,
        keyFileStored := none, sessionFingerprint := none }
      (some (.obj 7))).key = .ok (.obj 7)) ∧
    (Connection.key
      { id := "*TESTID", secret := "gatewaysecret", keyStored := none,
        keyFileStored := none, sessionFingerprint := none } =
      .gwError .gatewayKeyError) :=
  ⟨(claim_C3
      { id := "*TESTID", secret := "gatewaysecret", keyStored := none,
        keyFileStored := none, sessionFingerprint := none }
      (.obj 7) (fun _ h => PyKey.noConfusion h)).2,
   (claim_C3
      { id := "*TESTID", secret := "gatewaysecret", keyStored := none,
        keyFileStored := none, sessionFingerprint := none }
      (.obj 7) (fun _ h => PyKey.noConfusion h)).1 rfl⟩

/-- Claim C4: every endpoint operation turns any non-200 response into a
raised typed error of that endpoint's error family (`KeyServerError`,
`IDServerError`, `ReceptionCapabilitiesServerError`, `CreditsServerError`,
`MessageServerError` for the two send modes, `BlobServerError` for blob
upload and download) and never returns the raw response or a transport-layer
error object.  The family membership of the raised error is the contract of
`raise_server_error`, modelled from the spec. -/
theorem claim_C4 (c : Connection) (d : PyDict) (i m v bid : String)
    (data : List Nat) (resp : Response) (hs : resp.status ≠ 200)
    (hm : Connection.get_id_modes.contains m = true) :
    (c.get_public_key i resp).2 = .gwError (.keyServerError resp.status) ∧
    (c.get_id [(m, v)] resp).2 = .gwError (.idServerError resp.status) ∧
    (c.get_reception_capabilities i resp).2 =
      .gwError (.receptionCapabilitiesServerError resp.status) ∧
    (c.get_credits resp).2 = .gwError (.creditsServerError resp.status) ∧
    (c.send_simple d resp).2 = .gwError (.messageServerError resp.status) ∧
    (c.send_e2e d resp).2 = .gwError (.messageServerError resp.status) ∧
    (c.upload data resp).2 = .gwError (.blobServerError resp.status) ∧
    (c.download bid resp).2 = .gwError (.blobServerError resp.status) := by
  have hm2 : m ∈ Connection.get_id_modes := by simpa using hm
  refine ⟨?_, ?_, ?_, ?_, ?_, ?_, ?_, ?_⟩ <;>
    simp [Connection.get_public_key, Connection.get_id,
      Connection.get_reception_capabilities, Connection.get_credits,
      Connection.send_simple, Connection.send_e2e, Connection.sendInternal,
      Connection.upload, Connection.uploadInternal, Connection.download,
      raise_server_error, hs, hm, hm2]

theorem claim_C4_witness :
    (Connection.get_public_key
      { id := "*TESTID", secret := "gatewaysecret", keyStored := none,
        keyFileStored := none, sessionFingerprint := none }
      "ECHOECHO" ⟨404, ""⟩).2 = .gwError (.keyServerError 404) :=
  (claim_C4
    { id := "*TESTID", secret := "gatewaysecret", keyStored := none,
      keyFileStored := none, sessionFingerprint := none }
    [] "ECHOECHO" "phone" "41791234567" "b1" [1, 2, 3] ⟨404, ""⟩
    (by decide) (by decide)).1

/-- Converting the string value of an enum member back through the enum call
yields the member itself. -/
theorem ofValue_value (x : ReceptionCapability) :
    ReceptionCapability.ofValue (ReceptionCapability.value x) = some x := by
  cases x <;> rfl

/-- A token list whose stripped tokens are exactly the values of the members
of `l` parses to `l`. -/
theorem parseCapabilities_of_values (toks : List String)
    (l : List ReceptionCapability)
    (h : toks.map pyStrip = l.map ReceptionCapability.value) :
    parseCapabilities toks = some l := by
  induction toks generalizing l with
  | nil =>
    cases l with
    | nil => rfl
    | cons c cs => simp at h
  | cons t ts ih =>
    cases l with
    | nil => simp at h
    | cons c cs =>
      simp only [List.map_cons, List.cons.injEq] at h
      unfold parseCapabilities
      rw [h.1, ofValue_value c, ih cs h.2]

/-- A token list containing an unrecognized token fails to parse. -/
theorem parseCapabilities_of_bad (toks : List String)
    (h : ∃ t ∈ toks, ReceptionCapability.ofValue (pyStrip t) = none) :
    parseCapabilities toks = none := by
  induction toks with
  | nil => simp at h
  | cons t ts ih =>
    unfold parseCapabilities
    rcases h with ⟨u, hu, hbad⟩
    rcases List.mem_cons.mp hu with h0 | h0
    · rw [h0] at hbad
      rw [hbad]
    · rw [ih ⟨u, h0, hbad⟩]
      cases ReceptionCapability.ofValue (pyStrip t) <;> rfl

/-- Claim C5: on a 200 response whose body splits on commas into (stripped)
recognized capability tokens, `get_reception_capabilities` returns the
deduplicated, unordered set of the corresponding enum members; on a 200 body
containing an unrecognized token it records the response release and then
raises the `ReceptionCapabilitiesError` capability-parse error as its
outcome. -/
theorem claim_C5 (c : Connection) (i : String) (resp : Response)
    (h200 : resp.status = 200) :
    (∀ l : List ReceptionCapability,
      (pySplitComma resp.body).map pyStrip = l.map ReceptionCapability.value →
      c.get_reception_capabilities i resp =
        ([.httpGet (Connection.urls_get_reception_capabilities i)
            (c.injectDefaults [])],
         .ok l.toFinset)) ∧
    ((∃ t ∈ pySplitComma resp.body,
        ReceptionCapability.ofValue (pyStrip t) = none) →
      c.get_reception_capabilities i resp =
        ([.httpGet (Connection.urls_get_reception_capabilities i)
            (c.injectDefaults []),
          .release],
         .gwError .receptionCapabilitiesError)) := by
  constructor
  · intro l hl
    simp only [Connection.get_reception_capabilities, Connection.getRequest,
      h200, if_pos, parseCapabilities_of_values _ l hl]
  · intro hbad
    simp only [Connection.get_reception_capabilities, Connection.getRequest,
      h200, if_pos, parseCapabilities_of_bad _ hbad]

theorem claim_C5_witness :
    (Connection.get_reception_capabilities
      { id := "*TESTID", secret := "gatewaysecret", keyStored := none,
        keyFileStored := none, sessionFingerprint := none }
      "ECHOECHO" ⟨200, "text,image,file"⟩ =
      ([.httpGet "https://msgapi.threema.ch/capabilities/ECHOECHO"
          (Connection.injectDefaults
            { id := "*TESTID", secret := "gatewaysecret", keyStored := none,
              keyFileStored := none, sessionFingerprint := none } [])],
       .ok [ReceptionCapability.text, ReceptionCapability.image,
            ReceptionCapability.file].toFinset)) ∧
    (Connection.get_reception_capabilities
      { id := "*TESTID", secret := "gatewaysecret", keyStored := none,
        keyFileStored := none, sessionFingerprint := none }
      "ECHOECHO" ⟨200, "text,bogus"⟩ =
      ([.httpGet "https://msgapi.threema.ch/capabilities/ECHOECHO"
          (Connection.injectDefaults
            { id := "*TESTID", secret := "gatewaysecret", keyStored := none,
              keyFileStored := none, sessionFingerprint := none } []),
        .release],
       .gwError .receptionCapabilitiesError)) :=
  ⟨(claim_C5
      { id := "*TESTID", secret := "gatewaysecret", keyStored := none,
        keyFileStored := none, sessionFingerprint := none }
      "ECHOECHO" ⟨200, "text,image,file"⟩ rfl).1
      [ReceptionCapability.text, ReceptionCapability.image,
       ReceptionCapability.file] (by decide),
   (claim_C5
      { id := "*TESTID", secret := "gatewaysecret", keyStored := none,
        keyFileStored := none, sessionFingerprint := none }
      "ECHOECHO" ⟨200, "text,bogus"⟩ rfl).2
      ⟨"bogus", by decide, by decide⟩⟩

/-- Claim C6 counterexample: on a connection that stores a private key,
assigning `None` through the key-file property does not clear the key — a
subsequent `key` read still returns the old key instead of raising the
key-not-set error, so the key-file write path is not a clear-the-key
operation. -/
theorem claim_C6_counterexample :
    (Connection.set_key_file (fun _ => none)
      { id := "*TESTID", secret := "gatewaysecret",
        keyStored := some (.obj 7), keyFileStored := some "old.txt",
        sessionFingerprint := none }
      none).map Connection.key = .ok (.ok (.obj 7)) ∧
    (PyOutcome.ok (PyKey.obj 7)) ≠
      (PyOutcome.gwError GatewayError.gatewayKeyError) :=
  ⟨rfl, by decide⟩

/-- Claim C6 (amended): assigning `None` through the key value property is a
valid clear-the-key operation — afterwards no private key is stored and a
`key` read raises the key-not-set error.  Assigning `None` through the
key-file property only clears the recorded path: the stored private key is
left exactly as it was. -/
theorem claim_C6_amended (c : Connection) (fs : String → Option String) :
    (c.set_key none).keyStored = none ∧
    (c.set_key none).key = .gwError .gatewayKeyError ∧
    Connection.set_key_file fs c none =
      .ok { id := c.id, secret := c.secret, keyStored := c.keyStored,
            keyFileStored := none,
            sessionFingerprint := c.sessionFingerprint } :=
  ⟨rfl, rfl, rfl⟩

/-- Claim C7: every blob upload call issues a POST whose authentication
fields `from` and `secret` travel as query parameters (not form fields) and
whose binary payload is the multipart-encoded field named `blob`; on a 200
response the body text is returned unchanged as the blob identifier. -/
theorem claim_C7 (c : Connection) (data : List Nat) (resp : Response) :
    (c.upload data resp).1.head? =
      some (.httpPost Connection.urls_upload_blob
        [("from", c.id), ("secret", c.secret)] [] [("blob", data)]) ∧
    (resp.status = 200 → c.upload data resp =
      ([.httpPost Connection.urls_upload_blob
          [("from", c.id), ("secret", c.secret)] [] [("blob", data)]],
       .ok resp.body)) := by
  constructor
  · by_cases hs : resp.status = 200 <;>
      simp [Connection.upload, Connection.uploadInternal, raise_server_error,
        hs]
  · intro hs
    simp [Connection.upload, Connection.uploadInternal, hs]

theorem claim_C7_witness :
    Connection.upload
      { id := "*TESTID", secret := "gatewaysecret", keyStored := none,
        keyFileStored := none, sessionFingerprint := none }
      [1, 2, 3] ⟨200, "blobid"⟩ =
      ([.httpPost Connection.urls_upload_blob
          [("from", "*TESTID"), ("secret", "gatewaysecret")] []
          [("blob", [1, 2, 3])]],
       .ok "blobid") :=
  (claim_C7
    { id := "*TESTID", secret := "gatewaysecret", keyStored := none,
      keyFileStored := none, sessionFingerprint := none }
    [1, 2, 3] ⟨200, "blobid"⟩).2 rfl

/-- Claim C8: a connection constructed with `verify_fingerprint = True` and
`fingerprint = None` has its session pinned to the built-in fallback
fingerprint constant, which is a 16-byte binary value.  In the model the
pinned fingerprint is the `sessionFingerprint` attribute fixed when
`__init__` builds the session, before any operation can issue a request. -/
theorem claim_C8 (fs : String → Option String) (id secret : String)
    (key : Option PyKey) :
    (Connection.init fs id secret key none none true).map
      (fun c => c.sessionFingerprint) = .ok (some Connection.fingerprint) ∧
    Connection.fingerprint.length = 16 := by
  constructor
  · cases key with
    | none => rfl
    | some k => cases k <;> rfl
  · rfl

/-- Claim C9: when the constructor receives both a direct key and a key-file
path, `__init__` assigns the `key` property first and the `key_file`
property second, so the stored private key after construction is the one
decoded from the stripped first line of the file — not the directly supplied
key whenever the two differ. -/
theorem claim_C9 (fs : String → Option String) (id secret : String)
    (k : PyKey) (p content : String) (fp : Option (List Nat)) (v : Bool)
    (hfs : fs p = some content) :
    (Connection.init fs id secret (some k) (some p) fp v).map
      (fun c => c.keyStored) =
      .ok (some (Key.decode (pyStrip (firstLine content)))) ∧
    (Key.decode (pyStrip (firstLine content)) ≠ k →
      (Connection.init fs id secret (some k) (some p) fp v).map
        (fun c => c.keyStored) ≠ .ok (some k)) := by
  have h1 : (Connection.init fs id secret (some k) (some p) fp v).map
      (fun c => c.keyStored) =
      .ok (some (Key.decode (pyStrip (firstLine content)))) := by
    cases k <;>
      simp [Connection.init, Connection.set_key, Connection.set_key_file,
        hfs, PyOutcome.map]
  refine ⟨h1, fun hne hcontra => hne ?_⟩
  rw [h1] at hcontra
  simpa using hcontra

theorem claim_C9_witness :
    (Connection.init
      (fun q => if q = "key.txt" then some " PRIVKEYLINE \nrest" else none)
      "*TESTID" "gatewaysecret" (some (.obj 1)) (some "key.txt") none false).map
      (fun c => c.keyStored) = .ok (some (.decoded "PRIVKEYLINE")) :=
  (claim_C9
    (fun q => if q = "key.txt" then some " PRIVKEYLINE \nrest" else none)
    "*TESTID" "gatewaysecret" (.obj 1) "key.txt" " PRIVKEYLINE \nrest"
    none false (by decide)).1

/-- Claim C10: a connection constructed with an explicit fingerprint is
pinned to that fingerprint regardless of the `verify_fingerprint` flag: the
flag only selects the built-in fallback when no fingerprint is supplied, and
never disables pinning for an explicit one. -/
theorem claim_C10 (fs : String → Option String) (id secret : String)
    (key : Option PyKey) (fp : List Nat) (v : Bool) :
    (Connection.init fs id secret key none (some fp) v).map
      (fun c => c.sessionFingerprint) = .ok (some fp) := by
  cases v <;>
    (cases key with
     | none => rfl
     | some k => cases k <;> rfl)

end ThreemaMsgapi
